import Mathlib

/-!
Shallow embedding of the calendar data and layout engine of the
rM-agenda-generator repository (Python sources under `src/`).

Conventions of the embedding:
* A Python `datetime` is the number of minutes since 0001-01-01 00:00
  (proleptic Gregorian), as an `Int`.  A Python `date` with ordinal `n`
  (`date.toordinal`, 0001-01-01 = 1) corresponds to the minute value
  `(n - 1) * 1440`; 0001-01-01 is a Monday, matching `date.weekday()`.
* Python dicts keyed by `strftime("%Y-%m-%d")` strings are association
  lists `List (String × β)` looked up on the formatted key.
* Fallible Python code (raised exceptions) is an `Except PyError _`.
-/

namespace RMAgenda

/-- Errors raised by the Python code paths that the embedding models:
a recurrence-rule text `dateutil.rrule.rrulestr` cannot parse, a
`TypeError` from mixing `date` and `datetime` values or from iterating a
dict where a list of event dicts is expected, a `KeyError` from a scalar
field access on a by-date dict, and the explicit `ValueError` raised by
`generate_calendar_pdf` for an invalid view type. -/
inductive PyError
  | invalidRule
  | typeError
  | keyError
  | valueError
  deriving DecidableEq, Repr

/-- Civil date from a day ordinal (Python `date.fromordinal`), via the
standard era-based Gregorian algorithm; `ord = 1` is 0001-01-01.
Returns `(year, month, day)`. -/
def civilFromOrd (ord : Nat) : Nat × Nat × Nat :=
  let n := ord + 305
  let era := n / 146097
  let doe := n % 146097
  let yoe := (doe - doe / 1460 + doe / 36524 - doe / 146096) / 365
  let y := yoe + era * 400
  let doy := doe - (365 * yoe + yoe / 4 - yoe / 100)
  let mp := (5 * doy + 2) / 153
  let d := doy - (153 * mp + 2) / 5 + 1
  let m := if mp < 10 then mp + 3 else mp - 9
  (if m ≤ 2 then y + 1 else y, m, d)

/-- Day ordinal from a civil date (Python `date.toordinal`). -/
def toOrdinal (y m d : Nat) : Nat :=
  let yAdj := if m ≤ 2 then y - 1 else y
  let era := yAdj / 400
  let yoe := yAdj - era * 400
  let mp := if 2 < m then m - 3 else m + 9
  let doy := (153 * mp + 2) / 5 + d - 1
  let doe := yoe * 365 + yoe / 4 - yoe / 100 + doy
  era * 146097 + doe - 305

/-- Minutes-since-epoch value of a `datetime(y, m, d, hh, mi)`. -/
def mkDT (y m d hh mi : Nat) : Int :=
  ((toOrdinal y m d : Int) - 1) * 1440 + hh * 60 + mi

/-- Day ordinal of a datetime value (its `.date().toordinal()`). -/
def dayOrd (t : Int) : Int := t.fdiv 1440 + 1

/-- Python `datetime.weekday()`: Monday = 0, computed from the day ordinal. -/
def weekdayOf (t : Int) : Int := (t.fdiv 1440).emod 7

/-- Python `datetime.hour` of a minutes-since-epoch value. -/
def hourOf (t : Int) : Int := (t.emod 1440).ediv 60

/-- Left-pad a numeral with zeros (Python `%0Nd` for non-negative input). -/
def padNum (w n : Nat) : String :=
  let s := toString n
  String.mk (List.replicate (w - s.length) '0') ++ s

/-- Formatted key `strftime("%Y-%m-%d")` of a day given by civil components. -/
def dateKeyYMD (y m d : Nat) : String :=
  padNum 4 y ++ "-" ++ padNum 2 m ++ "-" ++ padNum 2 d

/-- Formatted key `strftime("%Y-%m-%d")` of a datetime value. -/
def dateKeyOf (t : Int) : String :=
  let c := civilFromOrd (dayOrd t).toNat
  dateKeyYMD c.1 c.2.1 c.2.2

/-- Formatted text `strftime("%d/%m")` of a datetime value (week-view date row). -/
def dayMonthKeyOf (t : Int) : String :=
  let c := civilFromOrd (dayOrd t).toNat
  padNum 2 c.2.2 ++ "/" ++ padNum 2 c.2.1

/-- First-match association-list lookup, the dict accesses
`d[k]` / `k in d` on Python dicts (keys are unique in a dict, so the
first binding is the binding). -/
def dictGet {β : Type} (k : String) : List (String × β) → Option β
  | [] => none
  | (k', v) :: rest => if k' = k then some v else dictGet k rest

/-- Python truthiness of an optional string (`None` and `""` are falsy). -/
def truthy : Option String → Bool
  | none => false
  | some s => s ≠ ""

end RMAgenda

namespace RMAgenda

/-! ## Recurrence rules (`dateutil.rrule` as used by `ical_parser.py`) -/

/-- Recurrence frequency of an `RRULE`, restricted to the frequencies the spec's grammar
names (`FREQ=DAILY` / `FREQ=WEEKLY`). -/
inductive Freq
  | daily
  | weekly
  deriving DecidableEq, Repr

/-- A parsed recurrence rule: `FREQ`, `INTERVAL` (default 1) and an
optional `COUNT` or `UNTIL` bound, the iCalendar subset the spec
declares (`FREQ, INTERVAL, COUNT|UNTIL`). -/
structure RRule where
  freq : Freq
  interval : Nat
  count : Option Nat
  until_ : Option Int
  deriving DecidableEq, Repr

/-- Minutes between consecutive candidate instants of a rule. -/
def stepOf (r : RRule) : Int :=
  (match r.freq with
    | .daily => 1440
    | .weekly => 10080) * r.interval

/-- The candidate instants `dtstart + k * step` for `k = 0, 1, …`,
generated far enough to cover every instant strictly below `b`
(later instants are removed by the `between` filter, so the extra
candidates at the end are harmless; `COUNT`/`UNTIL` truncation is
applied to this order-preserving prefix of the full sequence). -/
def ruleCandidates (r : RRule) (dtstart b : Int) : List Int :=
  if b ≤ dtstart then []
  else
    (List.range ((b - dtstart).toNat / (stepOf r).toNat + 1)).map
      (fun k => dtstart + stepOf r * k)

/-- All rule occurrences below the cutoff `b`: candidates, truncated by
`COUNT` (the count applies from `dtstart` on, before any range filter)
and bounded inclusively by `UNTIL` (dateutil keeps occurrences
`≤ until`). -/
def ruleOccs (r : RRule) (dtstart b : Int) : List Int :=
  let cands := ruleCandidates r dtstart b
  let counted := match r.count with
    | some c => cands.take c
    | none => cands
  match r.until_ with
    | some u => counted.filter (fun t => t ≤ u)
    | none => counted

/-- Model of `rule.between(a, b)` with the default `inc=False`: occurrences `t`
with `a < t < b`, in increasing order. -/
def ruleBetween (r : RRule) (dtstart a b : Int) : List Int :=
  (ruleOccs r dtstart b).filter (fun t => a < t ∧ t < b)

/-- The raw `RRULE` text handed to `dateutil.rrule.rrulestr`.  The
grammar parser itself lives in dateutil (outside this repository), so it
is modelled abstractly by its documented behaviour: well-formed text
denotes the parsed rule, malformed text makes `rrulestr` raise. -/
inductive RawRule
  | wellFormed (r : RRule)
  | malformed
  deriving DecidableEq, Repr

/-- Model of `rrulestr` on the raw rule text: the parsed rule, or the parse
error it raises on a grammar it cannot parse. -/
def parseRRule : RawRule → Except PyError RRule
  | .wellFormed r => .ok r
  | .malformed => .error .invalidRule

end RMAgenda

namespace RMAgenda

/-! ## `ICalParser.get_events` (src/src/utils/ical_parser.py) -/

/-- A `DTSTART`/`DTEND` property value: a `datetime`, or a bare `date`
(whole-day value, ordinal day number). -/
inductive DtValue
  | dt (t : Int)
  | dateOnly (d : Nat)
  deriving DecidableEq, Repr

/-- A `VEVENT` component as the icalendar library presents it to
`get_events`: optional text properties, optional start/end values and
optional raw recurrence-rule text. -/
structure VEvent where
  summary : Option String
  description : Option String
  location : Option String
  dtstart : Option DtValue
  dtend : Option DtValue
  rrule : Option RawRule
  deriving DecidableEq, Repr

/-- An event dictionary as built by `get_events` (the keys the code
writes: summary, description, location, all_day, start, end). -/
structure Event where
  summary : String
  description : String
  location : String
  all_day : Bool
  start : Int
  end_ : Int
  deriving DecidableEq, Repr

/-- The per-component state after lines 56–81 of `ical_parser.py`:
defaults applied, start normalized (a date-only start is converted to
midnight and flags `all_day`), end defaulted to `start + 1 hour` when
absent.  `endMixed` records the case the code leaves broken: a date-only
`DTEND` on a non-all-day event keeps a `date` object in `end`, so any
later arithmetic or comparison on it raises `TypeError`. -/
structure PendingEvent where
  summary : String
  description : String
  location : String
  all_day : Bool
  start : Int
  end_ : Int
  endMixed : Bool
  rrule : Option RawRule
  deriving DecidableEq, Repr

/-- Lines 56–84 of `get_events`: build the event dict for one component;
`none` when the component has no `DTSTART` (the code skips it). -/
def buildEvent (c : VEvent) : Option PendingEvent :=
  match c.dtstart with
  | none => none
  | some sv =>
    let allDay := match sv with
      | .dt _ => false
      | .dateOnly _ => true
    let start : Int := match sv with
      | .dt t => t
      | .dateOnly d => ((d : Int) - 1) * 1440
    let endPair : Int × Bool := match c.dtend with
      | some (.dt t) => (t, false)
      | some (.dateOnly d) =>
        if allDay then (((d : Int) - 1) * 1440, false)
        else (((d : Int) - 1) * 1440, true)
      | none => (start + 60, false)
    some { summary := c.summary.getD "No Title"
           description := c.description.getD ""
           location := c.location.getD ""
           all_day := allDay
           start := start
           end_ := endPair.1
           endMixed := endPair.2
           rrule := c.rrule }

/-- The event dict finally appended to the result list. -/
def toEvent (p : PendingEvent) : Event :=
  { summary := p.summary, description := p.description,
    location := p.location, all_day := p.all_day,
    start := p.start, end_ := p.end_ }

/-- One recurrence occurrence (lines 90–95): a copy of the base event
with `start := t` and `end := t + (base end - base start)`. -/
def occOf (p : PendingEvent) (t : Int) : Event :=
  { summary := p.summary, description := p.description,
    location := p.location, all_day := p.all_day,
    start := t, end_ := t + (p.end_ - p.start) }

/-- Lines 84–99 of `get_events` for one component (given the already
built event dict): the recurring branch parses the rule (a parse failure
propagates), expands `rule.between(start_date, end_date)` and rewrites
start/end per occurrence — computing the duration raises `TypeError`
when `end` is still a bare date and at least one occurrence is
materialized; the one-time branch appends the event iff
`start_date <= start <= end_date or start_date <= end <= end_date`,
where the second (short-circuited) comparison raises `TypeError` on a
bare-date `end`. -/
def processEvent (p : PendingEvent) (start_date end_date : Int) :
    Except PyError (List Event) :=
  match p.rrule with
  | some raw =>
    match parseRRule raw with
    | .error e => .error e
    | .ok r =>
      let ts := ruleBetween r p.start start_date end_date
      if p.endMixed ∧ ts ≠ [] then .error .typeError
      else .ok (ts.map (occOf p))
  | none =>
    if start_date ≤ p.start ∧ p.start ≤ end_date then .ok [toEvent p]
    else if p.endMixed then .error .typeError
    else if start_date ≤ p.end_ ∧ p.end_ ≤ end_date then .ok [toEvent p]
    else .ok []

/-- Error-propagating accumulation: the events contributed by one
component followed by those of the remaining components, a raised
exception (on either side, left first) aborting the whole call. -/
def exAppend (x y : Except PyError (List Event)) :
    Except PyError (List Event) :=
  match x with
  | .error err => .error err
  | .ok evs =>
    match y with
    | .error err => .error err
    | .ok evs' => .ok (evs ++ evs')

/-- Model of `ICalParser.get_events(start_date, end_date)` over the calendar's
`VEVENT` components (the `walk()` filter already applied): events are
accumulated in component order; a raised exception aborts the whole
call, discarding everything accumulated so far. -/
def get_events (comps : List VEvent) (start_date end_date : Int) :
    Except PyError (List Event) :=
  match comps with
  | [] => .ok []
  | c :: rest =>
    match buildEvent c with
    | none => get_events rest start_date end_date
    | some p =>
      exAppend (processEvent p start_date end_date)
        (get_events rest start_date end_date)

end RMAgenda

namespace RMAgenda

/-! ## Device profiles (src/src/utils/pdf_generator.py `_get_tablet_specs`,
src/src/app.py `get_dimensions`) -/

/-- reportlab `portrait((w, h))`: the pair reordered to
(smaller, larger). -/
def portraitPair (w h : Nat) : Nat × Nat := (min w h, max w h)

/-- Model of `PDFGenerator._get_tablet_specs` as a function of the tablet model
string (`None`/`""` are falsy and replaced by "reMarkable 2" first):
returns `(page_size, supports_color)`; any unrecognized model falls into
the final else branch with the reMarkable 2 specs. -/
def _get_tablet_specs (tablet_model : Option String) : (Nat × Nat) × Bool :=
  let tm := match tablet_model with
    | none => "reMarkable 2"
    | some s => if s = "" then "reMarkable 2" else s
  if tm = "reMarkable 1" then (portraitPair 595 842, false)
  else if tm = "reMarkable 2" then (portraitPair 595 842, false)
  else if tm = "Paper Pro" then (portraitPair 595 842, true)
  else (portraitPair 595 842, false)

/-- The dimension record returned by `RemarkableAgendaApp.get_dimensions`. -/
structure Dims where
  width_pt : Nat
  height_pt : Nat
  dpi : Nat
  deriving DecidableEq, Repr

/-- Model of `RemarkableAgendaApp.get_dimensions(tablet_model)`, with the app's
`self.selected_tablet` made an explicit argument: a `None` argument is
replaced by `self.selected_tablet or "reMarkable 2"` (falsy selected
tablet included); the if/elif chain ends in a reMarkable 2 default. -/
def get_dimensions (selected_tablet tablet_model : Option String) : Dims :=
  let tm := match tablet_model with
    | none =>
      match selected_tablet with
      | none => "reMarkable 2"
      | some s => if s = "" then "reMarkable 2" else s
    | some s => s
  if tm = "reMarkable 1" then ⟨595, 842, 226⟩
  else if tm = "reMarkable 2" then ⟨595, 842, 226⟩
  else if tm = "Paper Pro" then ⟨612, 792, 300⟩
  else ⟨595, 842, 226⟩

end RMAgenda

namespace RMAgenda

/-! ## Weather (src/src/utils/weather_api.py `WeatherAPI.get_forecast`) -/

/-- A forecast dictionary (`temperature`, `condition`, `icon`). -/
structure Forecast where
  temperature : Option Int
  condition : String
  icon : Option String
  deriving DecidableEq, Repr

/-- The placeholder returned for dates beyond the provider's horizon
(lines 68–73 of weather_api.py). -/
def unavailableForecast : Forecast :=
  { temperature := none, condition := "Forecast unavailable", icon := none }

/-- One entry of the on-disk weather cache: the write timestamp and the
cached forecast data. -/
structure CacheEntry where
  timestamp : Int
  data : Forecast
  deriving DecidableEq, Repr

/-- The outcome of `WeatherAPI.get_forecast`: the early `None` return,
a returned forecast dictionary, or the point where the code proceeds to
a network request against the provider (the request itself is an
external effect outside this embedding). -/
inductive ForecastResult
  | noneResult
  | value (f : Forecast)
  | fetchAttempt
  deriving DecidableEq, Repr

/-- Model of `WeatherAPI.get_forecast(date)` up to the network boundary, with the
object state (`api_key`, `location`, loaded cache) and the current time
explicit.  In source order: falsy credentials return `None`; a cache
entry for the date key younger than 6 hours is returned; a date more
than 7 days past `now` returns the placeholder; otherwise the code
attempts the provider fetch. -/
def get_forecast (api_key location : Option String)
    (cache : List (String × CacheEntry)) (now date : Int) : ForecastResult :=
  if ¬ truthy api_key ∨ ¬ truthy location then .noneResult
  else
    let fresh : Option Forecast :=
      match dictGet (dateKeyOf date) cache with
      | some entry => if now - entry.timestamp < 360 then some entry.data else none
      | none => none
    match fresh with
    | some f => .value f
    | none =>
      if 10080 < date - now then .value unavailableForecast
      else .fetchAttempt

end RMAgenda

namespace RMAgenda

/-! ## PDF generation (src/src/utils/pdf_generator.py) -/

/-- A table flowable: its cell data and column widths.  Styling
(`TableStyle`, fonts, row heights, colors) is presentation detail with
no bearing on the claims and is not carried. -/
structure TableData where
  data : List (List String)
  colWidths : List ℚ
  deriving DecidableEq, Repr

/-- A reportlab flowable appended to the `elements` list, plus the
`NewPage` page-break instruction of the spec's drawing vocabulary —
which the generators below never emit. -/
inductive Element
  | title (text : String)
  | heading (text : String)
  | paragraph (text : String)
  | spacer (w h : Nat)
  | table (t : TableData)
  | newPage
  deriving DecidableEq, Repr

/-- English month names, `calendar.month_name[m]`. -/
def monthName (m : Nat) : String :=
  [ "January", "February", "March", "April", "May", "June", "July",
    "August", "September", "October", "November", "December"
  ].getD (m - 1) ""

/-- English weekday names, Monday first (`strftime %A`). -/
def dayNameOf (t : Int) : String :=
  [ "Monday", "Tuesday", "Wednesday", "Thursday", "Friday",
    "Saturday", "Sunday"
  ].getD (weekdayOf t).toNat ""

/-- Whether a year is a Gregorian leap year. -/
def isLeap (y : Nat) : Bool :=
  y % 4 = 0 ∧ (y % 100 ≠ 0 ∨ y % 400 = 0)

/-- Days in a civil month. -/
def daysInMonth (y m : Nat) : Nat :=
  if m = 2 then (if isLeap y then 29 else 28)
  else if m = 4 ∨ m = 6 ∨ m = 9 ∨ m = 11 then 30
  else 31

/-- Model of `calendar.monthcalendar(year, month)` (firstweekday = Monday): the
month's weeks as rows of 7 day numbers, `0` in cells that fall outside
the month.  Cell `k` of the flattened grid holds day `k - fw + 1`, where
`fw` is the weekday of the 1st. -/
def monthcalendar (y m : Nat) : List (List Nat) :=
  let fw := (toOrdinal y m 1 - 1) % 7
  let dim := daysInMonth y m
  let weeks := (fw + dim + 6) / 7
  (List.range weeks).map fun i =>
    (List.range 7).map fun j =>
      let k := i * 7 + j
      if k < fw then 0
      else if k < fw + dim then k - fw + 1
      else 0

/-- Model of `PDFGenerator._get_events_for_day(events, year, month, day)`
(lines 442–447): look the `"%04d-%02d-%02d"` key up in the events dict
and return the summaries of the stored list, in stored order;
an absent key gives `[]`. -/
def _get_events_for_day (events : List (String × List Event))
    (year month day : Nat) : List String :=
  match dictGet (dateKeyYMD year month day) events with
  | some l => l.map Event.summary
  | none => []

/-- One cell of the month grid (lines 125–136): empty for a `0` day,
else the day number, with the day's event summaries appended
line-by-line when the events dict is truthy and the day has any. -/
def monthCell (events : List (String × List Event)) (y m day : Nat) :
    String :=
  if day = 0 then ""
  else
    let base := toString day
    if events ≠ [] then
      match _get_events_for_day events y m day with
      | [] => base
      | l => base ++ "\n" ++ String.intercalate "\n" l
    else base

/-- Model of `PDFGenerator.generate_month_calendar` (lines 90–167): title,
spacer, and the 7-column month table (day-name header row, then one row
per `monthcalendar` week); column widths share `page_width - 60` over
the 7 columns. -/
def generate_month_calendar (pageW : Nat) (year month : Nat)
    (events : List (String × List Event)) : List Element :=
  let cal := monthcalendar year month
  let header := ["Monday", "Tuesday", "Wednesday", "Thursday", "Friday",
                 "Saturday", "Sunday"]
  let rows := cal.map fun week => week.map (monthCell events year month)
  let colW : ℚ := ((pageW : ℚ) - 60) / 7
  [ .title (monthName month ++ " " ++ toString year),
    .spacer 1 20,
    .table { data := header :: rows, colWidths := List.replicate 7 colW } ]

/-- One date cell of the week view's date row (lines 215–226): the
`%d/%m` date, with condition and temperature appended when the weather
dict is truthy, has the day's key, and the stored value is truthy. -/
def weekDateCell (weather : List (String × Option Forecast)) (t : Int) :
    String :=
  let base := dayMonthKeyOf t
  if weather ≠ [] then
    match dictGet (dateKeyOf t) weather with
    | some (some w) =>
      base ++ "\n" ++ w.condition ++ "\n" ++
        (match w.temperature with
          | some v => toString v
          | none => "None") ++ "°C"
    | _ => base
  else base

/-- One day cell of an hour row (lines 238–247): the concatenation of
`summary ++ "\n"` over the day's stored events whose start hour equals
the row's hour; empty when the events dict is falsy or the key absent. -/
def weekHourCell (events : List (String × List Event)) (t : Int)
    (hour : Nat) : String :=
  if events ≠ [] then
    match dictGet (dateKeyOf t) events with
    | some l =>
      String.join ((l.filter (fun ev => hourOf ev.start = hour)).map
        (fun ev => ev.summary ++ "\n"))
    | none => ""
  else ""

/-- Hour label: two-digit hour followed by ":00". -/
def hourLabel (hour : Nat) : String := padNum 2 hour ++ ":00"

/-- The week table's cell matrix (lines 201–250): the header row
(`Time` plus the seven Monday-first day names), the date row
(`Date` plus the 7 dates from `start_date` on), then one row per hour
of `range(8, 21)`, each a time label plus 7 day cells. -/
def weekTableData (start_date : Int)
    (events : List (String × List Event))
    (weather : List (String × Option Forecast)) : List (List String) :=
  let headers := ["Time", "Monday", "Tuesday", "Wednesday", "Thursday",
                  "Friday", "Saturday", "Sunday"]
  let dateRow := "Date" ::
    (List.range 7).map
      (fun (i : Nat) => weekDateCell weather (start_date + 1440 * (i : Int)))
  let hourRows := (List.range 13).map fun h =>
    hourLabel (8 + h) ::
      (List.range 7).map
        (fun (i : Nat) =>
          weekHourCell events (start_date + 1440 * (i : Int)) (8 + h))
  headers :: dateRow :: hourRows

/-- Model of `PDFGenerator.generate_week_calendar` (lines 169–290): title,
spacer, and the week table; the 7 day columns share
`page_width - 60 - 40` after the fixed 40pt time column. -/
def generate_week_calendar (pageW : Nat) (start_date : Int)
    (events : List (String × List Event))
    (weather : List (String × Option Forecast)) : List Element :=
  let end_date := start_date + 1440 * 6
  let dayColW : ℚ := ((pageW : ℚ) - 60 - 40) / 7
  let sC := civilFromOrd (dayOrd start_date).toNat
  let eC := civilFromOrd (dayOrd end_date).toNat
  [ .title ("Week of " ++ monthName sC.2.1 ++ " " ++ padNum 2 sC.2.2 ++
      " - " ++ monthName eC.2.1 ++ " " ++ padNum 2 eC.2.2 ++ ", " ++
      toString eC.1),
    .spacer 1 20,
    .table { data := weekTableData start_date events weather,
             colWidths := 40 :: List.replicate 7 dayColW } ]

/-- Model of `PDFGenerator.generate_day_calendar` (lines 292–440) as invoked by
`generate_calendar_pdf`, which hands it the same by-date dicts the other
views receive.  The dynamic failures of that mismatch come first, in
source order: a truthy weather dict hits `weather['condition']`
(line 322) and raises `KeyError` because the dict is keyed by date
strings; a truthy events dict is then iterated in the schedule loop
(line 346), yielding its string keys, and `event['start']` on a string
raises `TypeError`.  With both dicts empty the function builds the
title, the 14-row schedule table (header plus one empty row per hour of
`range(8, 21)`), the tasks table (one `□` row per task, or 10 empty
checkbox rows when no tasks are supplied) and the fixed notes box. -/
def generate_day_calendar (pageW : Nat) (date : Int)
    (events : List (String × List Event))
    (weather : List (String × Option Forecast))
    (tasks : List String) : Except PyError (List Element) :=
  if weather ≠ [] then .error .keyError
  else if events ≠ [] then .error .typeError
  else
    let c := civilFromOrd (dayOrd date).toNat
    let availW : ℚ := (pageW : ℚ) - 60
    let schedule : List (List String) :=
      ["Time", "Event"] ::
        (List.range 13).map (fun h => [hourLabel (8 + h), ""])
    let taskTable : TableData :=
      if tasks ≠ [] then
        { data := tasks.map (fun task => ["□", task]),
          colWidths := [20, availW - 20] }
      else
        { data := (List.range 10).map (fun _ => ["□", ""]),
          colWidths := [20, availW - 20] }
    .ok
      [ .title (dayNameOf date ++ ", " ++ monthName c.2.1 ++ " " ++
          padNum 2 c.2.2 ++ ", " ++ toString c.1),
        .spacer 1 20,
        .heading "Schedule",
        .spacer 1 10,
        .table { data := schedule, colWidths := [60, availW - 60] },
        .spacer 1 20,
        .heading "Tasks",
        .spacer 1 10,
        .table taskTable,
        .spacer 1 20,
        .heading "Notes",
        .spacer 1 10,
        .table { data := [[""]], colWidths := [availW] } ]

/-- Style names already defined by reportlab's `getSampleStyleSheet()`
(reportlab/lib/styles.py, per the `reportlab>=3.6.12` pin in setup.py).
Only membership of `Title` — the first name the constructor re-adds —
decides any behaviour below; the tail is listed for completeness. -/
def sampleStyleSheetNames : List String :=
  ["Normal", "BodyText", "Italic", "Heading1", "Title", "Heading2",
   "Heading3", "Heading4", "Heading5", "Heading6", "Bullet",
   "Definition", "Code", "UnorderedList", "OrderedList"]

/-- Model of reportlab's `StyleSheet1.add`: raises `KeyError` when the
new style's name is already defined in the stylesheet, else registers
it. -/
def stylesheetAdd (defined : List String) (name : String) :
    Except PyError (List String) :=
  if defined.contains name then .error .keyError
  else .ok (defined ++ [name])

/-- A sequence of `styles.add` calls applied in order, stopping at the
first raised `KeyError`. -/
def addStyleSeq (defined : List String) :
    List String → Except PyError (List String)
  | [] => .ok defined
  | n :: rest =>
    match stylesheetAdd defined n with
    | .error e => .error e
    | .ok d => addStyleSeq d rest

/-- Model of `PDFGenerator.__init__` (pdf_generator.py lines 18–53):
after resolving the tablet model and the page size and color flag via
`_get_tablet_specs`, the constructor takes `getSampleStyleSheet()` and
adds custom `ParagraphStyle`s named `Title`, `Normal`, `Small` and
`Heading2` to it.  The sample stylesheet already defines `Title` (and
`Normal` and `Heading2`), so the very first `styles.add` raises
`KeyError` and every construction of `PDFGenerator` fails. -/
def PDFGenerator_init (tablet_model : Option String) :
    Except PyError ((Nat × Nat) × Bool) :=
  let specs := _get_tablet_specs tablet_model
  match addStyleSeq sampleStyleSheetNames
      ["Title", "Normal", "Small", "Heading2"] with
  | .error e => .error e
  | .ok _ => .ok specs

/-- Model of `generate_calendar_pdf(view_type, output_path, date,
events, weather, tasks)` (lines 450–479): constructs a `PDFGenerator`
(line 468) — whose `__init__` raises `KeyError` on the duplicate
`Title` style, so under the pinned reportlab every call fails at that
point — then dispatches on `view_type`, computing `start_of_week =
date - timedelta(days=date.weekday())` for the week view and raising
`ValueError` for any view type outside {month, week, day}.  The
dispatch renders exactly the single view named by `view_type`; there is
no multi-view sequencing and no page break. -/
def generate_calendar_pdf (tablet_model : Option String)
    (view_type : String) (date : Int)
    (events : List (String × List Event))
    (weather : List (String × Option Forecast))
    (tasks : List String) : Except PyError (List Element) :=
  match PDFGenerator_init tablet_model with
  | .error e => .error e
  | .ok specs =>
    let pageW := specs.1.1
    if view_type = "month" then
      let c := civilFromOrd (dayOrd date).toNat
      .ok (generate_month_calendar pageW c.1 c.2.1 events)
    else if view_type = "week" then
      .ok (generate_week_calendar pageW (date - 1440 * weekdayOf date)
        events weather)
    else if view_type = "day" then
      generate_day_calendar pageW date events weather tasks
    else .error .valueError

/-- Python keyword-argument binding for a call with `numPositional`
positional arguments followed by the named keyword arguments: the call
raises `TypeError` (binding fails) unless every keyword names a
parameter of the callee and no keyword names a parameter already bound
by a positional argument. -/
def pythonCallOk (params : List String) (numPositional : Nat)
    (kwargs : List String) : Bool :=
  kwargs.all (fun k =>
    params.contains k && !(params.take numPositional).contains k)

/-- The parameter list of `generate_calendar_pdf`. -/
def generateCalendarPdfParams : List String :=
  ["view_type", "output_path", "date", "events", "weather", "tasks"]

/-- The keyword names of the call in
`PDFPreviewView._perform_pdf_generation` (pdf_preview_view.py lines
408–415), which passes `output_path` and `self.current_date`
positionally and then `supports_color=`, `include=`, `dimensions=`,
`view_type=`. -/
def performPdfGenerationKwargs : List String :=
  ["supports_color", "include", "dimensions", "view_type"]

end RMAgenda

namespace RMAgenda

/-! ## Concrete inputs used by the claim theorems -/

/-- A non-recurring event whose interval strictly contains the query
range used against it (starts before, ends after). -/
def spanComp : VEvent :=
  ⟨some "Span", none, none, some (.dt 0), some (.dt 14400), none⟩

/-- A well-formed non-recurring event inside the query range. -/
def goodComp : VEvent :=
  ⟨some "Good", none, none, some (.dt 100), some (.dt 200), none⟩

/-- An event whose recurrence-rule text `rrulestr` cannot parse. -/
def badComp : VEvent :=
  ⟨some "Bad", none, none, some (.dt 300), some (.dt 360), some .malformed⟩

/-- The spec's scenario event: `FREQ=DAILY;UNTIL=2024-01-10T00:00:00`,
base start 2024-01-08 09:00, no `DTEND` (so the code defaults the end to
one hour after the start). -/
def comp5 : VEvent :=
  ⟨some "Standup", none, none, some (.dt (mkDT 2024 1 8 9 0)), none,
    some (.wellFormed ⟨.daily, 1, none, some (mkDT 2024 1 10 0 0)⟩)⟩

/-- The occurrence the scenario expansion materializes on Jan 8. -/
def occJan8 : Event :=
  { summary := "Standup", description := "", location := "",
    all_day := false, start := mkDT 2024 1 8 9 0, end_ := mkDT 2024 1 8 10 0 }

/-- The occurrence the scenario expansion materializes on Jan 9. -/
def occJan9 : Event :=
  { summary := "Standup", description := "", location := "",
    all_day := false, start := mkDT 2024 1 9 9 0, end_ := mkDT 2024 1 9 10 0 }

/-- An event stored first for 2024-01-08 with the later start time. -/
def evB : Event :=
  { summary := "B", description := "", location := "",
    all_day := false, start := 600, end_ := 660 }

/-- An event stored second for 2024-01-08 with the earlier start time. -/
def evA : Event :=
  { summary := "A", description := "", location := "",
    all_day := false, start := 540, end_ := 600 }

/-- An events dict whose stored day list is not sorted by start time. -/
def c4events : List (String × List Event) := [("2024-01-08", [evB, evA])]

/-- An unbounded daily recurring event with a 90-minute duration. -/
def recComp : VEvent :=
  ⟨some "Rec", none, none, some (.dt 0), some (.dt 90),
    some (.wellFormed ⟨.daily, 1, none, none⟩)⟩

end RMAgenda

namespace RMAgenda

/-! ## Claim theorems -/

/-- Claim C1, counterexample.  The claim's inclusive overlap test
(`start <= range_end AND end >= range_start`) holds for an event
spanning `[0, 14400]` against the query range `[4320, 7200]`, yet
`get_events` yields zero occurrences for it, because line 98 of
ical_parser.py only keeps an event whose start or end lies inside the
range — an event strictly containing the range is dropped. -/
theorem claim_C1_counterexample :
    (spanComp = ⟨some "Span", none, none, some (.dt 0), some (.dt 14400), none⟩) ∧
    ((0 : Int) ≤ 7200 ∧ (4320 : Int) ≤ 14400) ∧
    get_events [spanComp] 4320 7200 = .ok [] :=
  ⟨rfl, by decide, rfl⟩

/-- Claim C1, amended.  For a non-recurring event with a well-typed end
and `start <= end`, `get_events` over `[s, e]` returns exactly one
occurrence iff `s <= start <= e` or `s <= end <= e` (start or end falls
inside the range), else zero — a strictly narrower test than interval
intersection. -/
theorem claim_C1_amended (c : VEvent) (p : PendingEvent) (s e : Int)
    (hb : buildEvent c = some p) (hr : p.rrule = none)
    (hm : p.endMixed = false) (_hle : p.start ≤ p.end_) :
    get_events [c] s e =
      .ok (if (s ≤ p.start ∧ p.start ≤ e) ∨ (s ≤ p.end_ ∧ p.end_ ≤ e)
        then [toEvent p] else []) := by
  by_cases h1 : s ≤ p.start ∧ p.start ≤ e
  · simp [get_events, hb, processEvent, hr, hm, h1, exAppend]
  · by_cases h2 : s ≤ p.end_ ∧ p.end_ ≤ e
    · simp [get_events, hb, processEvent, hr, hm, h1, h2, exAppend]
    · simp [get_events, hb, processEvent, hr, hm, h1, h2, exAppend]

/-- Claim C1, witness for the amended theorem at a concrete in-range
event. -/
theorem claim_C1_amended_witness :
    get_events [goodComp] 0 1000 =
      .ok (if ((0 : Int) ≤ 100 ∧ (100 : Int) ≤ 1000) ∨
          ((0 : Int) ≤ 200 ∧ (200 : Int) ≤ 1000)
        then [toEvent ⟨"Good", "", "", false, 100, 200, false, none⟩]
        else []) :=
  claim_C1_amended goodComp _ 0 1000 rfl rfl rfl (by decide)

end RMAgenda

namespace RMAgenda

/-- Claim C2, counterexample.  A fetch containing a well-formed event
and a malformed-rule event raises out of `get_events` as a whole: the
call returns the parse error and none of the events, although the
well-formed event alone would have been returned — so the other events
of the fetch are not "still expanded and returned". -/
theorem claim_C2_counterexample :
    get_events [goodComp, badComp] 0 1000 = .error .invalidRule ∧
    get_events [goodComp] 0 1000 =
      .ok [{ summary := "Good", description := "", location := "",
             all_day := false, start := 100, end_ := 200 }] :=
  ⟨rfl, rfl⟩

/-- Associativity of the error-propagating accumulation. -/
theorem exAppend_assoc (x y z : Except PyError (List Event)) :
    exAppend (exAppend x y) z = exAppend x (exAppend y z) := by
  cases x <;> cases y <;> cases z <;> simp [exAppend]

/-- Accumulation lemma for `get_events`: processing a concatenation of
component lists processes the first list, then the second, events
appended in order, any raised error propagating from the first point of
failure. -/
theorem get_events_append (l1 l2 : List VEvent) (s e : Int) :
    get_events (l1 ++ l2) s e =
      exAppend (get_events l1 s e) (get_events l2 s e) := by
  induction l1 with
  | nil => cases h : get_events l2 s e <;> simp [get_events, exAppend, h]
  | cons c l1 ih =>
    simp only [List.cons_append, get_events]
    cases hB : buildEvent c with
    | none => exact ih
    | some p =>
      show exAppend (processEvent p s e) (get_events (l1 ++ l2) s e) =
        exAppend (exAppend (processEvent p s e) (get_events l1 s e))
          (get_events l2 s e)
      rw [ih, exAppend_assoc]

/-- Processing a component with a present start time and a malformed
rule raises the parse error. -/
theorem get_events_malformed_head (bad : VEvent) (post : List VEvent)
    (s e : Int) (hstart : bad.dtstart.isSome = true)
    (hrule : bad.rrule = some .malformed) :
    get_events (bad :: post) s e = .error .invalidRule := by
  rcases hO : bad.dtstart with _ | sv
  · rw [hO] at hstart; simp at hstart
  · cases sv <;>
      simp [get_events, buildEvent, hO, processEvent, hrule, parseRRule,
        exAppend]

/-- Claim C2, amended.  When any component of the fetch has a start
time and a recurrence-rule text that cannot be parsed, and the
components before it process without raising, `get_events` raises the
parse error for the whole fetch: no partial expansion of the malformed
rule is produced and no event of the fetch — valid ones included — is
returned from that call. -/
theorem claim_C2_amended (pre post : List VEvent) (bad : VEvent)
    (s e : Int) (hstart : bad.dtstart.isSome = true)
    (hrule : bad.rrule = some .malformed)
    (hpre : ∃ l, get_events pre s e = .ok l) :
    get_events (pre ++ bad :: post) s e = .error .invalidRule := by
  rcases hpre with ⟨l, hl⟩
  rw [get_events_append, hl, get_events_malformed_head bad post s e hstart hrule]
  rfl

/-- Claim C2, witness for the amended theorem: one valid event before
the malformed-rule event. -/
theorem claim_C2_amended_witness :
    get_events ([goodComp] ++ badComp :: []) 0 1000 = .error .invalidRule :=
  claim_C2_amended [goodComp] [] badComp 0 1000 rfl rfl ⟨_, rfl⟩

end RMAgenda

namespace RMAgenda

/-- Claim C4, counterexample.  For a day whose stored event list holds a
600-minute start before a 540-minute start, `_get_events_for_day`
renders the summaries in exactly that stored order — the looked-up
sequence is not sorted by start time (and ties are never broken by
summary, since no sorting happens anywhere in the pipeline). -/
theorem claim_C4_counterexample :
    dictGet (dateKeyYMD 2024 1 8) c4events = some [evB, evA] ∧
    _get_events_for_day c4events 2024 1 8 = ["B", "A"] ∧
    List.map Event.start [evB, evA] = [600, 540] ∧
    ¬ (600 : Int) ≤ 540 :=
  ⟨rfl, rfl, rfl, by decide⟩

/-- Claim C4, amended.  The sequence of occurrences looked up for a day
during layout is returned in stored (insertion) order: the rendered
summaries are exactly the summary projection of the day's stored list,
with no reordering by start time or summary. -/
theorem claim_C4_amended (events : List (String × List Event))
    (year month day : Nat) (l : List Event)
    (h : dictGet (dateKeyYMD year month day) events = some l) :
    _get_events_for_day events year month day = l.map Event.summary := by
  simp [_get_events_for_day, h]

/-- Claim C4, witness for the amended theorem at the concrete unsorted
store. -/
theorem claim_C4_amended_witness :
    _get_events_for_day c4events 2024 1 8 =
      List.map Event.summary [evB, evA] :=
  claim_C4_amended c4events 2024 1 8 [evB, evA] rfl

/-- Claim C5, counterexample.  The scenario expansion
(`FREQ=DAILY;UNTIL=2024-01-10T00:00:00`, base start 2024-01-08 09:00,
query range 2024-01-01 through 2024-01-31) returns exactly two
occurrences, not three: the 2024-01-10 09:00 instance lies after the
rule's `UNTIL` instant 2024-01-10 00:00 and is therefore not generated. -/
theorem claim_C5_counterexample :
    get_events [comp5] (mkDT 2024 1 1 0 0) (mkDT 2024 1 31 0 0) =
      .ok [occJan8, occJan9] ∧
    ([occJan8, occJan9] : List Event).length ≠ 3 :=
  ⟨rfl, by decide⟩

/-- Claim C5, amended.  The scenario expansion returns exactly two
occurrences, on January 8 and January 9 at 09:00, each one hour long
(the defaulted duration); January 10 is excluded by `UNTIL`. -/
theorem claim_C5_amended :
    get_events [comp5] (mkDT 2024 1 1 0 0) (mkDT 2024 1 31 0 0) =
      .ok
        [{ summary := "Standup", description := "", location := "",
           all_day := false, start := mkDT 2024 1 8 9 0,
           end_ := mkDT 2024 1 8 10 0 },
         { summary := "Standup", description := "", location := "",
           all_day := false, start := mkDT 2024 1 9 9 0,
           end_ := mkDT 2024 1 9 10 0 }] :=
  rfl

/-- Claim C6.  For a recurring event with a well-typed end, `get_events`
over `[s, e]` materializes exactly one occurrence per instant of
`rule.between(s, e)`, and every materialized occurrence starts at its
recurrence instant and has duration `base_end - base_start` — the base
duration is preserved, the base end instant is not reused. -/
theorem claim_C6 (c : VEvent) (p : PendingEvent) (r : RRule) (s e : Int)
    (hb : buildEvent c = some p) (hr : p.rrule = some (.wellFormed r))
    (hm : p.endMixed = false) :
    get_events [c] s e = .ok ((ruleBetween r p.start s e).map (occOf p)) ∧
    ∀ ev ∈ (ruleBetween r p.start s e).map (occOf p),
      ev.start ∈ ruleBetween r p.start s e ∧
        ev.end_ - ev.start = p.end_ - p.start := by
  constructor
  · simp [get_events, hb, processEvent, hr, parseRRule, hm, exAppend]
  · intro ev hev
    rcases List.mem_map.1 hev with ⟨t, ht, rfl⟩
    refine ⟨by simpa [occOf] using ht, ?_⟩
    simp only [occOf]
    ring

/-- Claim C6, witness: the unbounded daily event expanded over a range
holding its first three instants. -/
theorem claim_C6_witness :
    get_events [recComp] (-1) 3000 =
      .ok ((ruleBetween ⟨.daily, 1, none, none⟩ 0 (-1) 3000).map
        (occOf ⟨"Rec", "", "", false, 0, 90, false,
          some (.wellFormed ⟨.daily, 1, none, none⟩)⟩)) :=
  (claim_C6 recComp _ _ (-1) 3000 rfl rfl rfl).1

end RMAgenda

namespace RMAgenda

/-- Claim C3, code bug.  The multi-view document of the spec does not
exist in the code: the UI's generation call in
`PDFPreviewView._perform_pdf_generation` passes keyword arguments
(`supports_color`, `include`, `dimensions`) that `generate_calendar_pdf`
does not accept, plus `view_type` both positionally and by keyword, so
the call raises `TypeError` at binding; even a correctly-bound call
produces no document, because `PDFGenerator()` raises `KeyError` on the
duplicate `Title` style before any view runs; and the month method body
never emits a `NewPage` — there is no Month/Week/Day sequencing for a
request that includes several views, anywhere in the code. -/
theorem claim_C3_bug :
    pythonCallOk generateCalendarPdfParams 2 performPdfGenerationKwargs =
      false ∧
    generate_calendar_pdf (some "reMarkable 2") "month" (mkDT 2024 2 15 0 0)
        [] [] [] = .error .keyError ∧
    Element.newPage ∉ generate_month_calendar 595 2024 2 [] := by
  refine ⟨by decide, by rfl, ?_⟩
  decide

/-- Claim C7.  Profile lookup is total and defaults safely: any unknown
model string (and the wholly absent case) yields the canonical
reMarkable 2 profile in both `get_dimensions` and `_get_tablet_specs`,
with page width 595 and height 842 equal to the default profile's. -/
theorem claim_C7 (name : String) (sel : Option String)
    (h : name ∉ ["reMarkable 1", "reMarkable 2", "Paper Pro"]) :
    get_dimensions sel (some name) = get_dimensions none (some "reMarkable 2") ∧
    get_dimensions none none = get_dimensions none (some "reMarkable 2") ∧
    _get_tablet_specs (some name) = _get_tablet_specs (some "reMarkable 2") ∧
    _get_tablet_specs none = (portraitPair 595 842, false) ∧
    (get_dimensions none (some "reMarkable 2")).width_pt = 595 ∧
    (get_dimensions none (some "reMarkable 2")).height_pt = 842 := by
  simp only [List.mem_cons, List.mem_singleton, List.not_mem_nil] at h
  push_neg at h
  obtain ⟨h1, h2, h3⟩ := h
  refine ⟨?_, by decide, ?_, by decide, by decide, by decide⟩
  · simp [get_dimensions, h1, h2, h3]
  · by_cases he : name = ""
    · simp [_get_tablet_specs, he]
    · simp [_get_tablet_specs, he, h1, h2, h3]

/-- Claim C7, witness: an unrecognized model name with another device
currently selected. -/
theorem claim_C7_witness :
    get_dimensions (some "Paper Pro") (some "reMarkable 3") =
        get_dimensions none (some "reMarkable 2") ∧
    get_dimensions none none = get_dimensions none (some "reMarkable 2") ∧
    _get_tablet_specs (some "reMarkable 3") =
        _get_tablet_specs (some "reMarkable 2") ∧
    _get_tablet_specs none = (portraitPair 595 842, false) ∧
    (get_dimensions none (some "reMarkable 2")).width_pt = 595 ∧
    (get_dimensions none (some "reMarkable 2")).height_pt = 842 :=
  claim_C7 "reMarkable 3" (some "Paper Pro") (by decide)

/-- Claim C8, code bug.  The week-layout method body does exactly what
the claim says — `generate_calendar_pdf`'s week branch hands
`generate_week_calendar` the start of week `anchor - anchor.weekday()`
days (Monday-first), and the table it builds always has a day-name
header row, a date row, and 13 hour rows labelled 08:00 through 20:00,
every row carrying a label column plus exactly 7 day columns — but the
program never produces that layout: every `generate_calendar_pdf` call
raises `KeyError` in `PDFGenerator.__init__` (duplicate `Title` style
in reportlab's sample stylesheet) before the dispatch can reach the
week branch. -/
theorem claim_C8_bug (model : Option String) (t : Int)
    (events : List (String × List Event))
    (weather : List (String × Option Forecast))
    (tasks : List String) :
    generate_calendar_pdf model "week" t events weather tasks =
      .error .keyError ∧
    (weekTableData (t - 1440 * weekdayOf t) events weather).length = 15 ∧
    (∀ row ∈ weekTableData (t - 1440 * weekdayOf t) events weather,
      row.length = 8) ∧
    (weekTableData (t - 1440 * weekdayOf t) events weather).map
        (fun r => r.headI) =
      ["Time", "Date", "08:00", "09:00", "10:00", "11:00", "12:00",
       "13:00", "14:00", "15:00", "16:00", "17:00", "18:00", "19:00",
       "20:00"] := by
  refine ⟨rfl, by simp [weekTableData], ?_, ?_⟩
  · intro row hrow
    simp only [weekTableData, List.mem_cons, List.mem_map,
      List.mem_range] at hrow
    rcases hrow with rfl | rfl | ⟨i, hi, rfl⟩
    · decide
    · simp only [List.length_cons, List.length_map, List.length_range]
    · simp only [List.length_cons, List.length_map, List.length_range]
  · simp only [weekTableData, List.map_cons, List.map_map, List.headI]
    rfl

/-- Claim C9, counterexample.  A date 20000 minutes past `now` is more
than 7 days out, yet when the loaded cache holds a fresh entry for that
date's key, `get_forecast` returns the cached forecast, not the
"Forecast unavailable" placeholder — the cache check precedes the
horizon check. -/
theorem claim_C9_counterexample :
    (10080 : Int) < 20000 - 0 ∧
    get_forecast (some "k") (some "loc")
        [(dateKeyOf 20000, ⟨0, ⟨some 21, "sunny", none⟩⟩)] 0 20000 =
      .value ⟨some 21, "sunny", none⟩ ∧
    (⟨some 21, "sunny", none⟩ : Forecast) ≠ unavailableForecast :=
  ⟨by decide, rfl, by decide⟩

/-- Claim C9, amended.  When the api key and location are configured
and the cache has no fresh (younger than 6 hours) entry for the date's
key, a date more than 7 days past `now` returns the "Forecast
unavailable" placeholder; and for such far dates `get_forecast` never
reaches the provider fetch, whatever the credentials or cache state. -/
theorem claim_C9_amended (api_key location : Option String)
    (cache : List (String × CacheEntry)) (now date : Int)
    (hk : truthy api_key = true) (hl : truthy location = true)
    (hc : ∀ entry, dictGet (dateKeyOf date) cache = some entry →
      ¬ now - entry.timestamp < 360)
    (hd : 10080 < date - now) :
    get_forecast api_key location cache now date =
        .value unavailableForecast ∧
    ∀ (k l : Option String) (c : List (String × CacheEntry)) (n d : Int),
      10080 < d - n → get_forecast k l c n d ≠ .fetchAttempt := by
  constructor
  · simp only [get_forecast, hk, hl]
    cases hE : dictGet (dateKeyOf date) cache with
    | none => simp [hd]
    | some entry => simp [hc entry hE, hd]
  · intro k l c n d hfar
    simp only [get_forecast]
    by_cases hcred : ¬ truthy k = true ∨ ¬ truthy l = true
    · rw [if_pos hcred]
      simp
    · rw [if_neg hcred]
      cases hE : dictGet (dateKeyOf d) c with
      | none => simp [hfar]
      | some entry =>
        by_cases hfresh : n - entry.timestamp < 360
        · simp [hfresh]
        · simp [hfresh, hfar]

/-- Claim C9, witness for the amended theorem: configured credentials,
empty cache, date 20000 minutes beyond now. -/
theorem claim_C9_amended_witness :
    get_forecast (some "k") (some "loc") [] 0 20000 =
      .value unavailableForecast :=
  (claim_C9_amended (some "k") (some "loc") [] 0 20000 rfl rfl
    (fun entry h => by simp [dictGet] at h) (by decide)).1

/-- Claim C10, code bug.  The view-type dispatch of
`generate_calendar_pdf` — `ValueError` exactly for view types outside
{month, week, day}, a document for those inside — is the function's own
documented behaviour (its docstring and the explicit raise at line
479), but the program never reaches it: for every view type, valid or
invalid, the `PDFGenerator()` construction at line 468 raises
`KeyError` (duplicate `Title` style in reportlab's sample stylesheet)
first, so the call returns `KeyError`, never `ValueError` and never a
document. -/
theorem claim_C10_bug (model : Option String) (vt : String) (t : Int)
    (events : List (String × List Event))
    (weather : List (String × Option Forecast))
    (tasks : List String) :
    generate_calendar_pdf model vt t events weather tasks =
      .error .keyError ∧
    (Except.error PyError.keyError ≠
      (Except.error PyError.valueError : Except PyError (List Element))) ∧
    ∀ doc, generate_calendar_pdf model vt t events weather tasks ≠
      .ok doc := by
  have h1 : generate_calendar_pdf model vt t events weather tasks =
      Except.error PyError.keyError := rfl
  refine ⟨h1, fun h => PyError.noConfusion (Except.error.inj h),
    fun doc h => ?_⟩
  rw [h1] at h
  exact Except.noConfusion h

end RMAgenda
